import Mathlib

/-!
Verification of the Payload CMS MCP adapter:
`payload-mcp/server.py` (JSON-RPC dispatcher `handle_request`, tool executor
`execute_tool`, stdio loop `run`) and `mcp_client.py` (HTTP/SSE client
`PayloadMCPClient`). The Python source is shallowly embedded: JSON request
and response envelopes become Lean structures, the relational store becomes
an explicit state threaded through the executor together with a trace of
connection events, and collaborator failures (connect/query errors raised by
the database driver) are injected through an explicit oracle.
-/

set_option maxRecDepth 8000

namespace PayloadMCP

/-- A JSON-RPC request id: a number or a string (`request.get('id')`). -/
inductive RpcId
  | num (n : Int)
  | str (s : String)
  deriving DecidableEq, Repr

/-- One content block of a tool result (`{'type': 'text', 'text': ...}`). -/
structure ContentBlock where
  type : String
  text : String
  deriving DecidableEq, Repr

/-- A tool result envelope: `{'content': [...]}`. -/
structure ToolResult where
  content : List ContentBlock
  deriving DecidableEq, Repr

/-- A JSON-RPC error object `{'code': ..., 'message': ...}`. -/
structure RpcError where
  code : Int
  message : String
  deriving DecidableEq, Repr

/-- One property of a tool input schema, as declared in the
`tools/list` response of `server.py`. -/
structure PropertySpec where
  name : String
  type : String
  description : String
  default : Option Nat
  deriving DecidableEq, Repr

/-- A tool descriptor as returned by `tools/list`. -/
structure ToolDescriptor where
  name : String
  description : String
  properties : List PropertySpec
  required : List String
  deriving DecidableEq, Repr

/-- The possible shapes of a successful `result` field, one per method. -/
inductive RpcResult
  | initResult (protocolVersion serverName serverVersion : String)
  | toolsList (tools : List ToolDescriptor)
  | toolResult (r : ToolResult)
  deriving DecidableEq, Repr

/-- A JSON-RPC response as built by `handle_request`: it always carries
`jsonrpc` and `id`, and exactly one of `result` / `error` is populated. -/
structure Response where
  jsonrpc : String
  id : Option RpcId
  result : Option RpcResult
  error : Option RpcError
  deriving DecidableEq, Repr

/-- The argument mapping of a `tools/call`, restricted to the keys the
executor reads: `limit` (read with `args.get('limit', 10)`) and
`title`/`slug`/`content` (read with `args['title']` etc., raising `KeyError`
when absent, modelled by `none`). -/
structure Args where
  limit : Option Nat
  title : Option String
  slug : Option String
  content : Option String
  deriving DecidableEq, Repr

/-- The empty argument mapping `{}` used by `params.get('arguments', {})`. -/
def emptyArgs : Args := ⟨none, none, none, none⟩

/-- The `params` object of a `tools/call` request. `name` is accessed as
`request['params']['name']` (a `KeyError` when absent), `arguments` with
`.get('arguments', {})`. -/
structure ToolCallParams where
  name : Option String
  arguments : Option Args
  deriving DecidableEq, Repr

/-- An incoming JSON-RPC request. `method` is `request.get('method', '')`
(so an absent method reads as the empty string); `params` is accessed as
`request['params']`, a `KeyError` when absent. -/
structure Request where
  method : String
  id : Option RpcId
  params : Option ToolCallParams
  deriving DecidableEq, Repr

/-- A node of the Lexical-style rich-text document that the create tools
build: a heading with a tag, or a paragraph, each over a plain text run. -/
inductive RichNode
  | heading (tag : String) (text : String)
  | paragraph (text : String)
  deriving DecidableEq, Repr

/-- A rich-text document root: an ordered list of child nodes. -/
structure RichDoc where
  children : List RichNode
  deriving DecidableEq, Repr

/-- A row of the `pages` / `posts` tables, restricted to the columns the
server reads or writes: `id`, `slug`, `title`, `_status`, `created_at`,
the structured document (`layout` rich text for pages, `content` for
posts) and the `meta` title/description pair. -/
structure Record where
  id : Nat
  slug : String
  title : String
  status : String
  createdAt : Nat
  doc : RichDoc
  metaTitle : String
  metaDescription : String
  deriving DecidableEq, Repr

/-- The state of the relational store: the two tables, the next serial
`id`, and the clock value used for `NOW()`. -/
structure DBState where
  pages : List Record
  posts : List Record
  nextId : Nat
  now : Nat
  deriving DecidableEq, Repr

/-- Connection-lifecycle events of one `psycopg2` connection, recorded in
order: acquire, run a statement, commit, close. -/
inductive ConnEvent
  | connect
  | query (sql : String)
  | commit
  | close
  deriving DecidableEq, Repr

/-- Failure oracle for the external database collaborator:
`connectFails` makes `psycopg2.connect` raise, `queryFails` makes the
first `cur.execute` raise. -/
structure DbOracle where
  connectFails : Bool
  queryFails : Bool
  deriving DecidableEq, Repr

/-- The oracle under which the collaborator never fails. -/
def dbOk : DbOracle := ⟨false, false⟩

/-- `b.createdAt ≤ a.createdAt`: row `a` is at least as recent as row `b`
(the `ORDER BY created_at DESC` ordering). -/
def moreRecent (a b : Record) : Prop := b.createdAt ≤ a.createdAt

instance : DecidableRel moreRecent := fun a b => Nat.decLe b.createdAt a.createdAt

instance : IsTotal Record moreRecent :=
  ⟨fun a b => Nat.le_total b.createdAt a.createdAt⟩

instance : IsTrans Record moreRecent :=
  ⟨fun _ _ _ h h' => Nat.le_trans h' h⟩

/-- The semantics of
`SELECT ... WHERE _status = 'published' ORDER BY created_at DESC LIMIT n`:
keep the published rows, sort most-recent-first, take at most `n`. -/
def publishedQuery (rows : List Record) (n : Nat) : List Record :=
  ((rows.filter (fun r => r.status == "published")).insertionSort moreRecent).take n

/-- The text body built by the `list_pages` loop for one row. -/
def renderPageLine (p : Record) : String :=
  "- " ++ p.title ++ "\n" ++
  "  Slug: " ++ p.slug ++ "\n" ++
  "  URL: https://thechief.quest/" ++ p.slug ++ "\n\n"

/-- The full `list_pages` text: header plus one block per fetched row. -/
def renderPages (ps : List Record) : String :=
  ps.foldl (fun acc p => acc ++ renderPageLine p) "Pages in Payload CMS:\n\n"

/-- The text body built by the `list_posts` loop for one row. -/
def renderPostLine (p : Record) : String :=
  "- " ++ p.title ++ "\n" ++
  "  Slug: " ++ p.slug ++ "\n\n"

/-- The full `list_posts` text: header plus one block per fetched row. -/
def renderPosts (ps : List Record) : String :=
  ps.foldl (fun acc p => acc ++ renderPostLine p) "Blog Posts in Payload CMS:\n\n"

/-- The rich-text document `create_page` embeds in the `layout` column:
an `h1` heading with the title followed by one paragraph with the body. -/
def pageDoc (title contentText : String) : RichDoc :=
  ⟨[RichNode.heading "h1" title, RichNode.paragraph contentText]⟩

/-- The rich-text document `create_post` stores in the `content` column:
a single paragraph with the body. -/
def postDoc (contentText : String) : RichDoc :=
  ⟨[RichNode.paragraph contentText]⟩

/-- The row inserted by `create_page`: `_status` fixed to `'published'`,
`created_at = NOW()`, meta description `content[:160]`. -/
def newPageRecord (st : DBState) (title slug contentText : String) : Record :=
  { id := st.nextId
    slug := slug
    title := title
    status := "published"
    createdAt := st.now
    doc := pageDoc title contentText
    metaTitle := title
    metaDescription := contentText.take 160 }

/-- The row inserted by `create_post`. -/
def newPostRecord (st : DBState) (title slug contentText : String) : Record :=
  { id := st.nextId
    slug := slug
    title := title
    status := "published"
    createdAt := st.now
    doc := postDoc contentText
    metaTitle := title
    metaDescription := contentText.take 160 }

/-- `execute_tool(tool_name, args)`: dispatch on the tool name, run the
database operation, and either return a `ToolResult` or raise (modelled
as `Except.error` with the exception text). The returned triple also
carries the updated store and the connection events that occurred, so
that resource handling is visible even on the raising paths. -/
def executeTool (st : DBState) (oracle : DbOracle) (toolName : String)
    (args : Args) : Except String ToolResult × DBState × List ConnEvent :=
  if toolName = "list_pages" then
    if oracle.connectFails then (.error "connection to server failed", st, [])
    else if oracle.queryFails then (.error "query failed", st, [.connect])
    else
      let limit := args.limit.getD 10
      let pages := publishedQuery st.pages limit
      (.ok ⟨[⟨"text", renderPages pages⟩]⟩, st,
        [.connect, .query "SELECT pages published DESC LIMIT", .close])
  else if toolName = "create_page" then
    match args.title with
    | none => (.error "'title'", st, [])
    | some title =>
      match args.slug with
      | none => (.error "'slug'", st, [])
      | some slug =>
        match args.content with
        | none => (.error "'content'", st, [])
        | some contentText =>
          if oracle.connectFails then (.error "connection to server failed", st, [])
          else if oracle.queryFails then (.error "query failed", st, [.connect])
          else
            (.ok ⟨[⟨"text",
                "Page created successfully!\nTitle: " ++ title ++
                "\nSlug: " ++ slug ++
                "\nURL: https://thechief.quest/" ++ slug⟩]⟩,
              { st with pages := st.pages ++ [newPageRecord st title slug contentText],
                        nextId := st.nextId + 1 },
              [.connect, .query "INSERT INTO pages", .commit, .close])
  else if toolName = "list_posts" then
    if oracle.connectFails then (.error "connection to server failed", st, [])
    else if oracle.queryFails then (.error "query failed", st, [.connect])
    else
      let limit := args.limit.getD 10
      let posts := publishedQuery st.posts limit
      (.ok ⟨[⟨"text", renderPosts posts⟩]⟩, st,
        [.connect, .query "SELECT posts published DESC LIMIT", .close])
  else if toolName = "create_post" then
    match args.title with
    | none => (.error "'title'", st, [])
    | some title =>
      match args.slug with
      | none => (.error "'slug'", st, [])
      | some slug =>
        match args.content with
        | none => (.error "'content'", st, [])
        | some contentText =>
          if oracle.connectFails then (.error "connection to server failed", st, [])
          else if oracle.queryFails then (.error "query failed", st, [.connect])
          else
            (.ok ⟨[⟨"text",
                "Post created successfully!\nTitle: " ++ title ++
                "\nSlug: " ++ slug⟩]⟩,
              { st with posts := st.posts ++ [newPostRecord st title slug contentText],
                        nextId := st.nextId + 1 },
              [.connect, .query "INSERT INTO posts", .commit, .close])
  else
    (.ok ⟨[⟨"text", "Unknown tool: " ++ toolName⟩]⟩, st, [])

/-- The tool registry declared inline in the `tools/list` branch of
`handle_request`, in declaration order. -/
def registryTools : List ToolDescriptor :=
  [ { name := "list_pages"
      description := "List all pages in Payload CMS"
      properties := [⟨"limit", "number", "Number of pages to return", some 10⟩]
      required := [] },
    { name := "create_page"
      description := "Create a new page with content"
      properties :=
        [⟨"title", "string", "Page title", none⟩,
         ⟨"slug", "string", "URL slug", none⟩,
         ⟨"content", "string", "Page content", none⟩]
      required := ["title", "slug", "content"] },
    { name := "list_posts"
      description := "List all blog posts"
      properties := [⟨"limit", "number", "Number of posts to return", some 10⟩]
      required := [] },
    { name := "create_post"
      description := "Create a new blog post"
      properties :=
        [⟨"title", "string", "Post title", none⟩,
         ⟨"slug", "string", "URL slug", none⟩,
         ⟨"content", "string", "Post content", none⟩]
      required := ["title", "slug", "content"] } ]

/-- The names of the registered tools. -/
def registryToolNames : List String := registryTools.map (fun t => t.name)

/-- `handle_request(request)`: route by method. A `tools/call` request
without `params` or without `params.name` raises a `KeyError` that the
dispatcher does not catch (modelled as `Except.error`); every other path
returns a response. Exceptions raised by `execute_tool` are caught and
converted into `-32603` error responses. -/
def handleRequest (st : DBState) (oracle : DbOracle) (req : Request) :
    Except String (Response × DBState × List ConnEvent) :=
  if req.method = "initialize" then
    .ok (⟨"2.0", req.id,
          some (.initResult "1.0.0" "payload-content-manager" "1.0.0"),
          none⟩, st, [])
  else if req.method = "tools/list" then
    .ok (⟨"2.0", req.id, some (.toolsList registryTools), none⟩, st, [])
  else if req.method = "tools/call" then
    match req.params with
    | none => .error "'params'"
    | some p =>
      match p.name with
      | none => .error "'name'"
      | some toolName =>
        match executeTool st oracle toolName (p.arguments.getD emptyArgs) with
        | (.ok r, st', ev) =>
          .ok (⟨"2.0", req.id, some (.toolResult r), none⟩, st', ev)
        | (.error e, st', ev) =>
          .ok (⟨"2.0", req.id, none, some ⟨-32603, e⟩⟩, st', ev)
  else
    .ok (⟨"2.0", req.id, none,
          some ⟨-32601, "Method not found: " ++ req.method⟩⟩, st, [])

/-- One line of standard input as consumed by the `run` loop:
either `json.loads` fails on it (with the given exception text) or it
parses to a request. -/
inductive Line
  | malformed (msg : String)
  | parsed (req : Request)
  deriving Repr

/-- The `run` loop: read lines until end of input; for each line, parse
and dispatch. The pairing returned is (standard output: one response
printed per successfully handled request, in order; standard error: one
`Error: ...` diagnostic per line whose parse or handling raised). -/
def runLoop (oracle : DbOracle) : DBState → List Line → List Response × List String
  | _, [] => ([], [])
  | st, Line.malformed m :: rest =>
    let out := runLoop oracle st rest
    (out.1, ("Error: " ++ m) :: out.2)
  | st, Line.parsed req :: rest =>
    match handleRequest st oracle req with
    | .ok (resp, st', _) =>
      let out := runLoop oracle st' rest
      (resp :: out.1, out.2)
    | .error m =>
      let out := runLoop oracle st rest
      (out.1, ("Error: " ++ m) :: out.2)

/-- What `PayloadMCPClient._call_tool` returns after the HTTP POST:
either the JSON payload of the first `data: ` SSE line, or the fallback
object `{"error": "No valid response"}` when no such line exists. -/
inductive ClientResult
  | data (payload : String)
  | errorNoValidResponse
  deriving DecidableEq, Repr

/-- Python's `str.split('\n')`: cut the character sequence at every
newline, keeping empty segments (so the empty text yields one empty
line). -/
def splitNL : List Char → List (List Char)
  | [] => [[]]
  | c :: cs =>
    match splitNL cs with
    | [] => [[]]
    | l :: ls => if c = '\n' then [] :: l :: ls else (c :: l) :: ls

/-- The SSE-parsing tail of `_call_tool`: scan the response body line by
line for the first line starting with `data: ` and return the rest of
that line (`line[6:]`); otherwise return the fallback error object. -/
def callToolParseSSE (body : String) : ClientResult :=
  match (splitNL body.data).find? (fun l => "data: ".data.isPrefixOf l) with
  | some line => .data (String.mk (line.drop 6))
  | none => .errorNoValidResponse

/-- The tool names sent by the wrapper methods of `PayloadMCPClient`
(`list_posts`, `get_post`, `create_post`, `update_post`, `delete_post`,
`list_pages`, `create_page`, `list_categories`, `create_category`), in
declaration order. -/
def clientWrapperToolNames : List String :=
  ["posts_list", "posts_get", "posts_create", "posts_update", "posts_delete",
   "pages_list", "pages_create", "category_list", "category_create"]

/-- A `tools/call` request envelope as both transports build it. -/
def toolCallReq (rid : Option RpcId) (toolName : String) (args : Args) : Request :=
  ⟨"tools/call", rid, some ⟨some toolName, some args⟩⟩

/-- A `tools/list` request envelope. -/
def toolsListReq (rid : Option RpcId) : Request :=
  ⟨"tools/list", rid, none⟩

/-- The fixed `tools/list` response. -/
def toolsListResponse (rid : Option RpcId) : Response :=
  ⟨"2.0", rid, some (.toolsList registryTools), none⟩

/-- Whether a rich-text node is a paragraph block. -/
def isParagraph : RichNode → Bool
  | .paragraph _ => true
  | _ => false

/-- A connection trace is fully released: either no connection was
acquired, or exactly one was acquired, ran one statement, and was closed,
committing right before the close in the mutating case. -/
def balancedTrace : List ConnEvent → Bool
  | [] => true
  | [ConnEvent.connect, ConnEvent.query _, ConnEvent.close] => true
  | [ConnEvent.connect, ConnEvent.query _, ConnEvent.commit, ConnEvent.close] => true
  | _ => false

/-- An empty store used for concrete evaluations. -/
def st0 : DBState := ⟨[], [], 1, 0⟩

/-- The oracle under which `cur.execute` raises. -/
def qFail : DbOracle := ⟨false, true⟩

/-- C1: a `tools/call` whose tool name is not registered yields a
successful response — a `result`, no `error` — whose content is the
single text block `Unknown tool: <name>`. -/
theorem unknown_tool_soft_miss (st : DBState) (oracle : DbOracle)
    (rid : Option RpcId) (toolName : String) (args : Args)
    (h : toolName ∉ registryToolNames) :
    handleRequest st oracle (toolCallReq rid toolName args) =
      .ok (⟨"2.0", rid,
            some (.toolResult ⟨[⟨"text", "Unknown tool: " ++ toolName⟩]⟩),
            none⟩, st, []) := by
  simp only [registryToolNames, registryTools, List.map_cons, List.map_nil,
    List.mem_cons, List.not_mem_nil, or_false, not_or] at h
  obtain ⟨h1, h2, h3, h4⟩ := h
  simp [handleRequest, toolCallReq, executeTool, h1, h2, h3, h4]

/-- Witness for C1 at the concrete tool name `bogus_tool`. -/
theorem unknown_tool_soft_miss_witness :
    handleRequest st0 dbOk (toolCallReq (some (.num 1)) "bogus_tool" emptyArgs) =
      .ok (⟨"2.0", some (.num 1),
            some (.toolResult ⟨[⟨"text", "Unknown tool: bogus_tool"⟩]⟩),
            none⟩, st0, []) :=
  unknown_tool_soft_miss st0 dbOk (some (.num 1)) "bogus_tool" emptyArgs
    (by decide)

/-- C2: whenever `handle_request` returns a response, that response's id
equals the request's id. -/
theorem response_id_echoes_request_id (st : DBState) (oracle : DbOracle)
    (req : Request) (resp : Response) (st' : DBState) (ev : List ConnEvent)
    (h : handleRequest st oracle req = .ok (resp, st', ev)) :
    resp.id = req.id := by
  unfold handleRequest at h
  split_ifs at h
  · cases h; rfl
  · cases h; rfl
  · split at h
    · cases h
    · split at h
      · cases h
      · split at h
        · cases h; rfl
        · cases h; rfl
  · cases h; rfl

/-- Witness for C2 at a concrete `initialize` request. -/
theorem response_id_echoes_request_id_witness :
    (Response.mk "2.0" (some (.str "w"))
      (some (.initResult "1.0.0" "payload-content-manager" "1.0.0")) none).id
      = (Request.mk "initialize" (some (.str "w")) none).id :=
  response_id_echoes_request_id st0 dbOk
    (Request.mk "initialize" (some (.str "w")) none) _ _ _ rfl

/-- C3: a `create_page` call missing any of the required `title`, `slug`,
`content` arguments returns a `-32603` error response, with no connection
event and the store unchanged. -/
theorem create_page_missing_arg_fails (st : DBState) (oracle : DbOracle)
    (rid : Option RpcId) (args : Args)
    (h : args.title = none ∨ args.slug = none ∨ args.content = none) :
    ∃ m, handleRequest st oracle (toolCallReq rid "create_page" args) =
      .ok (⟨"2.0", rid, none, some ⟨-32603, m⟩⟩, st, []) := by
  rcases args with ⟨lim, t, s, c⟩
  cases t with
  | none => exact ⟨"'title'", by simp [handleRequest, toolCallReq, executeTool]⟩
  | some t' =>
    cases s with
    | none => exact ⟨"'slug'", by simp [handleRequest, toolCallReq, executeTool]⟩
    | some s' =>
      cases c with
      | none =>
        exact ⟨"'content'", by simp [handleRequest, toolCallReq, executeTool]⟩
      | some c' => simp at h

/-- Witness for C3: `create_page` with only a title present. -/
theorem create_page_missing_arg_fails_witness :
    ∃ m, handleRequest st0 dbOk
        (toolCallReq (some (.num 1)) "create_page" ⟨none, some "T", none, none⟩) =
      .ok (⟨"2.0", some (.num 1), none, some ⟨-32603, m⟩⟩, st0, []) :=
  create_page_missing_arg_fails st0 dbOk (some (.num 1))
    ⟨none, some "T", none, none⟩ (Or.inr (Or.inl rfl))

/-- C9: any method other than `initialize`, `tools/list`, `tools/call`
yields the error `-32601` with message `Method not found: <method>`. -/
theorem unknown_method_not_found (st : DBState) (oracle : DbOracle)
    (req : Request)
    (h1 : req.method ≠ "initialize") (h2 : req.method ≠ "tools/list")
    (h3 : req.method ≠ "tools/call") :
    handleRequest st oracle req =
      .ok (⟨"2.0", req.id, none,
            some ⟨-32601, "Method not found: " ++ req.method⟩⟩, st, []) := by
  simp [handleRequest, h1, h2, h3]

/-- Witness for C9 at the concrete method `bogus/method`. -/
theorem unknown_method_not_found_witness :
    handleRequest st0 dbOk (Request.mk "bogus/method" (some (.num 7)) none) =
      .ok (⟨"2.0", some (.num 7), none,
            some ⟨-32601, "Method not found: bogus/method"⟩⟩, st0, []) :=
  unknown_method_not_found st0 dbOk (Request.mk "bogus/method" (some (.num 7)) none)
    (by decide) (by decide) (by decide)

/-- C6: an HTTP response body with no line starting `data: ` makes the
client return the explicit fallback error object, a value distinct from
every successful payload. -/
theorem sse_without_data_line_fails (body : String)
    (h : ∀ l ∈ splitNL body.data, "data: ".data.isPrefixOf l = false) :
    callToolParseSSE body = .errorNoValidResponse ∧
      ∀ p, ClientResult.errorNoValidResponse ≠ ClientResult.data p := by
  refine ⟨?_, fun p hc => by cases hc⟩
  unfold callToolParseSSE
  rw [List.find?_eq_none.mpr (fun l hl => by simp [h l hl])]

/-- Witness for C6 at a concrete body with no `data: ` line. -/
theorem sse_without_data_line_fails_witness :
    callToolParseSSE "event: message\nid: 3" = .errorNoValidResponse ∧
      ∀ p, ClientResult.errorNoValidResponse ≠ ClientResult.data p :=
  sse_without_data_line_fails "event: message\nid: 3" (by decide)

/-- C7: a malformed input line followed by a valid `tools/list` line
makes the stdio loop emit exactly one output response (for the valid
line), one diagnostic for the malformed line, and go on processing the
remaining input. -/
theorem stdio_loop_survives_malformed_line (oracle : DbOracle) (st : DBState)
    (msg : String) (rid : Option RpcId) (rest : List Line) :
    runLoop oracle st (Line.malformed msg :: Line.parsed (toolsListReq rid) :: rest) =
      (toolsListResponse rid :: (runLoop oracle st rest).1,
       ("Error: " ++ msg) :: (runLoop oracle st rest).2) := by
  simp [runLoop, handleRequest, toolsListReq, toolsListResponse]

/-- C10: every tool name sent by a `PayloadMCPClient` wrapper method is
absent from the server's registry, so dispatching it to this server hits
the unknown-tool branch, returning the soft-miss text and touching
neither the store nor a connection. -/
theorem client_wrapper_tools_unregistered (toolName : String)
    (h : toolName ∈ clientWrapperToolNames) :
    toolName ∉ registryToolNames ∧
      ∀ (st : DBState) (oracle : DbOracle) (args : Args),
        executeTool st oracle toolName args =
          (.ok ⟨[⟨"text", "Unknown tool: " ++ toolName⟩]⟩, st, []) := by
  fin_cases h <;> exact ⟨by decide, fun st oracle args => rfl⟩

/-- Witness for C10 at the concrete wrapper tool name `posts_list`. -/
theorem client_wrapper_tools_unregistered_witness :
    "posts_list" ∉ registryToolNames ∧
      ∀ (st : DBState) (oracle : DbOracle) (args : Args),
        executeTool st oracle "posts_list" args =
          (.ok ⟨[⟨"text", "Unknown tool: posts_list"⟩]⟩, st, []) :=
  client_wrapper_tools_unregistered "posts_list" (by decide)

/-- C4: `list_pages` returns the rendering of a fetched row list that has
at most `limit` entries (`limit` defaulting to 10 when absent), contains
only published rows of the store, and is ordered most-recent-first by
creation time. -/
theorem list_pages_bounded_published_recent_first
    (st : DBState) (rid : Option RpcId) (args : Args) :
    ∃ fetched : List Record,
      handleRequest st dbOk (toolCallReq rid "list_pages" args) =
        .ok (⟨"2.0", rid,
              some (.toolResult ⟨[⟨"text", renderPages fetched⟩]⟩), none⟩,
             st, [.connect, .query "SELECT pages published DESC LIMIT", .close]) ∧
      fetched.length ≤ args.limit.getD 10 ∧
      (∀ r ∈ fetched, r.status = "published" ∧ r ∈ st.pages) ∧
      List.Sorted moreRecent fetched := by
  refine ⟨publishedQuery st.pages (args.limit.getD 10), ?_, ?_, ?_, ?_⟩
  · simp [handleRequest, toolCallReq, executeTool, dbOk]
  · exact List.length_take_le _ _
  · intro r hr
    have hr' : r ∈ (st.pages.filter
        (fun r => r.status == "published")).insertionSort moreRecent :=
      List.take_subset _ _ hr
    rw [List.mem_insertionSort] at hr'
    have hm := List.mem_filter.mp hr'
    exact ⟨by simpa using hm.2, hm.1⟩
  · exact List.Pairwise.sublist (List.take_sublist _ _)
      (List.sorted_insertionSort moreRecent _)

/-- C5: a successful `create_page` / `create_post` appends exactly one
record whose structured document wraps the body text as a single
paragraph block, whose meta description is the first 160 characters of
the body text, and whose status is fixed to `published`. -/
theorem create_tools_persist_paragraph_meta_published
    (st : DBState) (rid : Option RpcId) (title slug contentText : String)
    (args : Args) (hT : args.title = some title) (hS : args.slug = some slug)
    (hC : args.content = some contentText) :
    (handleRequest st dbOk (toolCallReq rid "create_page" args) =
      .ok (⟨"2.0", rid, some (.toolResult ⟨[⟨"text",
              "Page created successfully!\nTitle: " ++ title ++
              "\nSlug: " ++ slug ++
              "\nURL: https://thechief.quest/" ++ slug⟩]⟩), none⟩,
           { st with pages := st.pages ++ [newPageRecord st title slug contentText],
                     nextId := st.nextId + 1 },
           [.connect, .query "INSERT INTO pages", .commit, .close])) ∧
    (handleRequest st dbOk (toolCallReq rid "create_post" args) =
      .ok (⟨"2.0", rid, some (.toolResult ⟨[⟨"text",
              "Post created successfully!\nTitle: " ++ title ++
              "\nSlug: " ++ slug⟩]⟩), none⟩,
           { st with posts := st.posts ++ [newPostRecord st title slug contentText],
                     nextId := st.nextId + 1 },
           [.connect, .query "INSERT INTO posts", .commit, .close])) ∧
    ((newPageRecord st title slug contentText).doc.children.filter isParagraph =
      [RichNode.paragraph contentText]) ∧
    ((newPostRecord st title slug contentText).doc.children.filter isParagraph =
      [RichNode.paragraph contentText]) ∧
    (newPageRecord st title slug contentText).metaDescription =
      contentText.take 160 ∧
    (newPostRecord st title slug contentText).metaDescription =
      contentText.take 160 ∧
    (newPageRecord st title slug contentText).status = "published" ∧
    (newPostRecord st title slug contentText).status = "published" := by
  refine ⟨?_, ?_, rfl, rfl, ?_, ?_, rfl, rfl⟩
  · simp [handleRequest, toolCallReq, executeTool, dbOk, hT, hS, hC]
  · simp [handleRequest, toolCallReq, executeTool, dbOk, hT, hS, hC]
  · simp only [newPageRecord]
  · simp only [newPostRecord]

/-- Witness for C5 at concrete title/slug/content. -/
theorem create_tools_persist_witness :
    (handleRequest st0 dbOk (toolCallReq (some (.num 1)) "create_page"
        ⟨none, some "T", some "t", some "C"⟩) =
      .ok (⟨"2.0", some (.num 1), some (.toolResult ⟨[⟨"text",
              "Page created successfully!\nTitle: " ++ "T" ++
              "\nSlug: " ++ "t" ++
              "\nURL: https://thechief.quest/" ++ "t"⟩]⟩), none⟩,
           { st0 with pages := st0.pages ++ [newPageRecord st0 "T" "t" "C"],
                      nextId := st0.nextId + 1 },
           [.connect, .query "INSERT INTO pages", .commit, .close])) ∧
    (handleRequest st0 dbOk (toolCallReq (some (.num 1)) "create_post"
        ⟨none, some "T", some "t", some "C"⟩) =
      .ok (⟨"2.0", some (.num 1), some (.toolResult ⟨[⟨"text",
              "Post created successfully!\nTitle: " ++ "T" ++
              "\nSlug: " ++ "t"⟩]⟩), none⟩,
           { st0 with posts := st0.posts ++ [newPostRecord st0 "T" "t" "C"],
                      nextId := st0.nextId + 1 },
           [.connect, .query "INSERT INTO posts", .commit, .close])) ∧
    ((newPageRecord st0 "T" "t" "C").doc.children.filter isParagraph =
      [RichNode.paragraph "C"]) ∧
    ((newPostRecord st0 "T" "t" "C").doc.children.filter isParagraph =
      [RichNode.paragraph "C"]) ∧
    (newPageRecord st0 "T" "t" "C").metaDescription = "C".take 160 ∧
    (newPostRecord st0 "T" "t" "C").metaDescription = "C".take 160 ∧
    (newPageRecord st0 "T" "t" "C").status = "published" ∧
    (newPostRecord st0 "T" "t" "C").status = "published" :=
  create_tools_persist_paragraph_meta_published st0 (some (.num 1)) "T" "t" "C"
    ⟨none, some "T", some "t", some "C"⟩ rfl rfl rfl

/-- C8 counterexample: when the database statement raises partway
through a `list_pages` call, `handle_request` still returns a response
(the `-32603` error), yet the trace holds the acquired connection with
no matching close — the connection is not released before the response
is returned. -/
theorem connection_leak_on_query_failure :
    handleRequest st0 qFail (toolCallReq (some (.num 1)) "list_pages" emptyArgs) =
      .ok (⟨"2.0", some (.num 1), none, some ⟨-32603, "query failed"⟩⟩, st0,
           [ConnEvent.connect]) ∧
    ConnEvent.connect ∈ [ConnEvent.connect] ∧
    ConnEvent.close ∉ [ConnEvent.connect] := by
  refine ⟨by simp [handleRequest, toolCallReq, executeTool, qFail], by decide, by decide⟩

/-- C8 amended: when the tool operation completes without raising, every
connection acquired during the invocation is released before the result
is returned — one statement ran, a commit precedes the close exactly for
the mutating tools; when the data-store operation raises partway, the
acquired connection is left unclosed. -/
theorem tool_success_releases_connection
    (st : DBState) (oracle : DbOracle) (toolName : String) (args : Args)
    (res : ToolResult) (st' : DBState) (ev : List ConnEvent)
    (h : executeTool st oracle toolName args = (.ok res, st', ev)) :
    balancedTrace ev = true ∧
      ((toolName = "create_page" ∨ toolName = "create_post") →
        ev.count ConnEvent.commit = 1) := by
  unfold executeTool at h
  repeat' split at h
  all_goals cases h <;> exact ⟨rfl, by intro hn; first | rfl | simp_all⟩

/-- Witness for the amended C8 at a concrete successful `list_pages`. -/
theorem tool_success_releases_connection_witness :
    balancedTrace [ConnEvent.connect,
      ConnEvent.query "SELECT pages published DESC LIMIT", ConnEvent.close] = true ∧
      (("list_pages" = "create_page" ∨ "list_pages" = "create_post") →
        List.count ConnEvent.commit [ConnEvent.connect,
          ConnEvent.query "SELECT pages published DESC LIMIT", ConnEvent.close] = 1) :=
  tool_success_releases_connection st0 dbOk "list_pages" emptyArgs
    ⟨[⟨"text", renderPages (publishedQuery st0.pages 10)⟩]⟩ st0
    [ConnEvent.connect, ConnEvent.query "SELECT pages published DESC LIMIT",
     ConnEvent.close] rfl

end PayloadMCP
